import Mathlib

set_option maxHeartbeats 1000000
set_option maxRecDepth 4000

/-! Verification of the Debian builder of driverkit
    (src/pkg/driverbuilder/builder/debian.go).

    The network (http.Get / http.Head), Go's regexp engine and the text/template
    machinery are external collaborators; they are modelled as explicit oracle
    parameters (`fetch`, `re`, `parse`, `exec`) threaded through the translated
    functions, so every theorem quantifies over their behaviour.  Everything the
    repository's own code computes (pattern construction, mirror iteration,
    fallback order, the cardinality gate, template-data construction) is
    translated directly from the source. -/

/-- Characters of a string, used to build the line-level script model. -/
def str (s : String) : List Char := s.data

/-- Does the pattern occur as a leading segment of the character list? -/
def startsWithChars : List Char → List Char → Bool
  | [], _ => true
  | _ :: _, [] => false
  | a :: as, b :: bs => a = b && startsWithChars as bs

/-- Does the pattern occur anywhere inside the character list (Go strings.Contains)? -/
def hasSubChars (pat : List Char) : List Char → Bool
  | [] => startsWithChars pat []
  | b :: rest => startsWithChars pat (b :: rest) || hasSubChars pat rest

/-- Go strings.Contains on strings. -/
def strContains (s pat : String) : Bool := hasSubChars pat.data s.data

/-- Does the character list end with the pattern? -/
def endsWithChars (pat s : List Char) : Bool := startsWithChars pat.reverse s.reverse

/-- Go strings.TrimSuffix: drop the suffix when present, otherwise return unchanged. -/
def strTrimSuffix (s pat : String) : String :=
  if endsWithChars pat.data s.data then
    String.mk (s.data.take (s.data.length - pat.data.length))
  else s

/-- Modelled from the spec: the kernelrelease package is not under src/.  Spec
section 3 gives the fields used by the Debian builder: the dotted version
triple, the free-form FullExtraversion suffix and a canonical architecture
string (Architecture.String() is the Architecture field here). -/
structure KernelRelease where
  Version : Nat
  PatchLevel : Nat
  Sublevel : Nat
  FullExtraversion : String
  Architecture : String

/-- Modelled from the spec: the Build part of the build configuration is not
under src/; spec section 3 lists its fields used here: driver version string
and the optional module / probe output paths (empty string = unset). -/
structure Build where
  DriverVersion : String
  ModuleFilePath : String
  ProbeFilePath : String

/-- Modelled from the spec: the Config type is not under src/; spec section 3
lists the fields the Debian builder reads: the Build record, the optional
caller-supplied override URL list (none = Go nil slice), the driver display
name and the base URL for the driver source tarball. -/
structure Config where
  Build : Build
  KernelUrls : Option (List String)
  DriverName : String
  DownloadBaseURL : String

/-- Template data record, translated field for field from debianTemplateData. -/
structure debianTemplateData where
  DriverBuildDir : String
  ModuleDownloadURL : String
  KernelDownloadURLS : List String
  KernelLocalVersion : String
  ModuleDriverName : String
  ModuleFullPath : String
  BuildModule : Bool
  BuildProbe : Bool
  LLVMVersion : String

/-- Modelled from the spec: the DriverDirectory constant (fixed build-staging
directory path) is declared outside src/. -/
def DriverDirectory : String := "/tmp/driver"

/-- Modelled from the spec: the ModuleFullPath constant (configured module
output location inside the staging area) is declared outside src/. -/
def ModuleFullPathConst : String := "/tmp/driver/module.ko"

/-- Derived extraversion fragment: the source's local extraVersionPartial.
FullExtraversion is first trimmed of the architecture suffix; when it contains
the -cloud marker, that marker is trimmed off as well. -/
def debianExtraVersionFragment (kr : KernelRelease) : String :=
  if strContains kr.FullExtraversion ("-cloud") then
    strTrimSuffix (strTrimSuffix kr.FullExtraversion ("-" ++ kr.Architecture)) ("-cloud")
  else
    strTrimSuffix kr.FullExtraversion ("-" ++ kr.Architecture)

/-- Derived package naming group: the source's local matchExtraGroup.  The
architecture token, or a cloud-architecture token when FullExtraversion
contains the -cloud marker. -/
def debianMatchExtraGroup (kr : KernelRelease) : String :=
  if strContains kr.FullExtraversion ("-cloud") then "cloud-" ++ kr.Architecture
  else kr.Architecture

/-- Older Debian headers naming-scheme regex text: fmt.Sprintf of the source's
rmatch with (Version, PatchLevel, Sublevel, extraVersionPartial, group, arch). -/
def debianHeadersPatternOld (kr : KernelRelease) (group : String) : String :=
  "href=\"(linux-headers-" ++ toString kr.Version ++ "\\." ++ toString kr.PatchLevel
    ++ "\\." ++ toString kr.Sublevel ++ debianExtraVersionFragment kr
    ++ "-(" ++ group ++ ")_.*(" ++ kr.Architecture ++ "|all)\\.deb)\""

/-- Newer Debian headers naming-scheme regex text: fmt.Sprintf of the source's
rmatchNew with (group, Version, PatchLevel, Sublevel, extraVersionPartial, arch). -/
def debianHeadersPatternNew (kr : KernelRelease) (group : String) : String :=
  "href=\"(linux-headers-[0-9]+\\.[0-9]+\\.[0-9]+-[0-9]+-(" ++ group ++ ")_"
    ++ toString kr.Version ++ "\\." ++ toString kr.PatchLevel ++ "\\."
    ++ toString kr.Sublevel ++ debianExtraVersionFragment kr
    ++ "_(" ++ kr.Architecture ++ "|all)\\.deb)\""

/-- Naming-scheme fallback as in the source: run the older pattern; when it
yields no match (FindStringSubmatch result shorter than 1, i.e. empty), run the
newer pattern instead. -/
def debianTryPatterns (re : String → String → List String) (body old new : String) :
    List String :=
  if (re old body).length < 1 then re new body else re old body

/-- Translation of fetchDebianHeadersURLFromRelease.  `re` models
regexp FindStringSubmatch (empty list = no match, otherwise full match followed
by capture groups); `fetch` models http.Get plus ReadAll of the body. -/
def fetchDebianHeadersURLFromRelease (re : String → String → List String)
    (fetch : String → Except String String) (baseURL : String) (kr : KernelRelease) :
    Except String (List String) :=
  match fetch baseURL with
  | Except.error e => Except.error e
  | Except.ok bodyStr =>
    if (debianTryPatterns re bodyStr
          (debianHeadersPatternOld kr (debianMatchExtraGroup kr))
          (debianHeadersPatternNew kr (debianMatchExtraGroup kr))).length < 1 then
      Except.error ("kernel headers not found")
    else if (debianTryPatterns re bodyStr
          (debianHeadersPatternOld kr ("common"))
          (debianHeadersPatternNew kr ("common"))).length < 1 then
      Except.error ("kernel headers common not found")
    else
      Except.ok
        [baseURL ++ (debianTryPatterns re bodyStr
            (debianHeadersPatternOld kr (debianMatchExtraGroup kr))
            (debianHeadersPatternNew kr (debianMatchExtraGroup kr))).getD 1 (""),
         baseURL ++ (debianTryPatterns re bodyStr
            (debianHeadersPatternOld kr ("common"))
            (debianHeadersPatternNew kr ("common"))).getD 1 ("")]

/-- First mirror of the headers base URL list. -/
def debianMirror0 : String := "http://security-cdn.debian.org/pool/main/l/linux/"

/-- Second mirror of the headers base URL list. -/
def debianMirror1 : String := "http://security-cdn.debian.org/pool/updates/main/l/linux/"

/-- Third mirror of the headers base URL list. -/
def debianMirror2 : String := "https://mirrors.edge.kernel.org/debian/pool/main/l/linux/"

/-- The fixed, ordered mirror list baseURLS of debianHeadersURLFromRelease. -/
def debianBaseURLs : List String := [debianMirror0, debianMirror1, debianMirror2]

/-- The mirror loop of debianHeadersURLFromRelease: first mirror whose per-mirror
resolution succeeds wins; per-mirror errors are dropped; exhaustion yields the
not-found error. -/
def debianHeadersLoop (re : String → String → List String)
    (fetch : String → Except String String) (kr : KernelRelease) :
    List String → Except String (List String)
  | [] => Except.error ("kernel headers not found")
  | u :: rest =>
    match fetchDebianHeadersURLFromRelease re fetch u kr with
    | Except.ok urls => Except.ok urls
    | Except.error _ => debianHeadersLoop re fetch kr rest

/-- Translation of debianHeadersURLFromRelease: iterate the fixed mirror list. -/
def debianHeadersURLFromRelease (re : String → String → List String)
    (fetch : String → Except String String) (kr : KernelRelease) :
    Except String (List String) :=
  debianHeadersLoop re fetch kr debianBaseURLs

/-- Default pool base URL used by debianKbuildURLFromRelease. -/
def debianKbuildMainURL : String := "http://mirrors.kernel.org/debian/pool/main/l/linux/"

/-- Alternate linux-tools pool base URL used for legacy major version 3. -/
def debianKbuildToolsURL : String := "http://mirrors.kernel.org/debian/pool/main/l/linux-tools/"

/-- Base URL selection of debianKbuildURLFromRelease: the linux-tools pool for
major version 3, the default pool otherwise. -/
def debianKbuildBaseURL (kr : KernelRelease) : String :=
  if kr.Version = 3 then debianKbuildToolsURL else debianKbuildMainURL

/-- Kbuild regex text: fmt.Sprintf of the source's rmatch with
(Version, PatchLevel, arch). -/
def debianKbuildPattern (kr : KernelRelease) : String :=
  "href=\"(linux-kbuild-" ++ toString kr.Version ++ "\\." ++ toString kr.PatchLevel
    ++ ".*" ++ kr.Architecture ++ "\\.deb)\""

/-- Translation of debianKbuildURLFromRelease: one fetch against the selected
pool; the match must have exactly the full match plus one group. -/
def debianKbuildURLFromRelease (re : String → String → List String)
    (fetch : String → Except String String) (kr : KernelRelease) :
    Except String String :=
  match fetch (debianKbuildBaseURL kr) with
  | Except.error e => Except.error e
  | Except.ok body =>
    if (re (debianKbuildPattern kr) body).length ≠ 2 then Except.error ("kbuild not found")
    else Except.ok (debianKbuildBaseURL kr ++ (re (debianKbuildPattern kr) body).getD 1 (""))

/-- Translation of debianLLVMVersionFromKernelRelease: the switch on the kernel
major version. -/
def debianLLVMVersionFromKernelRelease (kr : KernelRelease) : String :=
  if kr.Version = 5 then "12" else "7"

/-- Translation of fetchDebianKernelURLs: kbuild URL first, then the two header
URLs, returned as headers followed by the kbuild URL. -/
def fetchDebianKernelURLs (re : String → String → List String)
    (fetch : String → Except String String) (kr : KernelRelease) :
    Except String (List String) :=
  match debianKbuildURLFromRelease re fetch kr with
  | Except.error e => Except.error e
  | Except.ok kbuildURL =>
    match debianHeadersURLFromRelease re fetch kr with
    | Except.error e => Except.error e
    | Except.ok urls => Except.ok (urls ++ [kbuildURL])

/-- Modelled from the spec: getResolvingURLs is declared outside src/.  Spec
section 4.3 policy 1: validate reachability of each URL (HTTP existence check)
and pass the reachable ones through; the family's cardinality gate itself is
applied by the caller (Script). -/
def getResolvingURLs (reach : String → Bool) (urls : List String) :
    Except String (List String) :=
  Except.ok (urls.filter reach)

/-- URL resolution step of Script: override URLs when supplied, mirror
resolution otherwise, both filtered through getResolvingURLs. -/
def debianResolvedURLs (re : String → String → List String)
    (fetch : String → Except String String) (reach : String → Bool)
    (c : Config) (kr : KernelRelease) : Except String (List String) :=
  match c.KernelUrls with
  | none =>
    match fetchDebianKernelURLs re fetch kr with
    | Except.error e => Except.error e
    | Except.ok kurls => getResolvingURLs reach kurls
  | some ks => getResolvingURLs reach ks

/-- Modelled from the spec: the embedded templates/debian.sh raw text is not
under src/; its text is only ever handed to the template parser, so it is
modelled as an architecture-indexed token mirroring the fmt.Sprintf
substitution of the architecture into the template in Script. -/
def debianTemplateText (arch : String) : String := "templates/debian.sh:" ++ arch

/-- Template data construction of Script, field for field: the module and probe
toggles are the nonemptiness of the configured output paths. -/
def mkDebianTemplateData (c : Config) (kr : KernelRelease) (urls : List String) :
    debianTemplateData :=
  { DriverBuildDir := DriverDirectory
    ModuleDownloadURL := c.DownloadBaseURL ++ "/" ++ c.Build.DriverVersion ++ ".tar.gz"
    KernelDownloadURLS := urls
    KernelLocalVersion := kr.FullExtraversion
    ModuleDriverName := c.DriverName
    ModuleFullPath := ModuleFullPathConst
    BuildModule := decide (0 < c.Build.ModuleFilePath.length)
    BuildProbe := decide (0 < c.Build.ProbeFilePath.length)
    LLVMVersion := debianLLVMVersionFromKernelRelease kr }

/-- Translation of Script, returning the Go (string, error) pair as
(script text, optional error).  `parse` models template.Parse on the
architecture-substituted template text and `exec` models template.Execute on
the constructed template data; every failing stage returns the empty script
together with the error. -/
def debianScript (re : String → String → List String)
    (fetch : String → Except String String) (reach : String → Bool)
    (parse : String → Except String Unit)
    (exec : debianTemplateData → Except String String)
    (c : Config) (kr : KernelRelease) : String × Option String :=
  match parse (debianTemplateText kr.Architecture) with
  | Except.error e => ("", some e)
  | Except.ok _ =>
    match debianResolvedURLs re fetch reach c kr with
    | Except.error e => ("", some e)
    | Except.ok urls =>
      if urls.length < 3 then ("", some ("specific kernel headers not found"))
      else
        match exec (mkDebianTemplateData c kr urls) with
        | Except.error e => ("", some e)
        | Except.ok s => (s, none)

/-- One rendered script line: a fixed leading fragment followed by interpolated
text from the template data. -/
def iline (hd : String) (rest : List Char) : List Char := hd.data ++ rest

/-- Comment line opening the module-build section of the script. -/
def moduleSectionMarker : List Char := str ("# Build the module")

/-- Comment line opening the probe-build section of the script. -/
def probeSectionMarker : List Char := str ("# Build the eBPF probe")

/-- Modelled from the spec: the embedded templates/debian.sh body is not under
src/.  Per spec sections 4.4 and 6 the preamble recreates the staging
directory, downloads and unpacks the driver source archive and downloads and
unpacks the kernel artifacts from every resolved URL; it is always rendered. -/
def debianPreambleLines (arch : String) (td : debianTemplateData) : List (List Char) :=
  [ str ("#!/bin/bash"),
    str ("set -xeuo pipefail"),
    iline ("rm -Rf ") td.DriverBuildDir.data,
    iline ("mkdir ") td.DriverBuildDir.data,
    iline ("curl --silent -SL ")
      (td.ModuleDownloadURL.data ++ str (" | tar -xzf - -C /tmp/module-download")) ]
  ++ td.KernelDownloadURLS.map (fun u => iline ("curl --silent -o kernel.deb -SL ") u.data)
  ++ [ iline ("dpkg -x kernel.deb /tmp/kernel-download/") arch.data,
       str ("cd /tmp/kernel-download") ]

/-- Modelled from the spec: module-build section of templates/debian.sh,
rendered only when BuildModule holds; structure mirrors the BuildModule
section of src/unnamed/part_000. -/
def debianModuleLines (td : debianTemplateData) : List (List Char) :=
  [ moduleSectionMarker,
    iline ("cd ") td.DriverBuildDir.data,
    iline ("make CC=clang-")
      (td.LLVMVersion.data ++ str (" LOCALVERSION=") ++ td.KernelLocalVersion.data),
    iline ("mv ") (td.ModuleDriverName.data ++ str (".ko ") ++ td.ModuleFullPath.data),
    iline ("modinfo ") td.ModuleFullPath.data ]

/-- Modelled from the spec: probe-build section of templates/debian.sh,
rendered only when BuildProbe holds; structure mirrors the BuildProbe section
of src/unnamed/part_000. -/
def debianProbeLines (td : debianTemplateData) : List (List Char) :=
  [ probeSectionMarker,
    iline ("cd ") (td.DriverBuildDir.data ++ str ("/bpf")),
    iline ("make LLC=/usr/bin/llc-")
      (td.LLVMVersion.data ++ str (" CLANG=/usr/bin/clang-") ++ td.LLVMVersion.data),
    str ("ls -l probe.o") ]

/-- Rendered script lines: the preamble always, the module-build section iff
BuildModule, the probe-build section iff BuildProbe. -/
def debianScriptLines (arch : String) (td : debianTemplateData) : List (List Char) :=
  debianPreambleLines arch td
    ++ (if td.BuildModule then debianModuleLines td else [])
    ++ (if td.BuildProbe then debianProbeLines td else [])

/-- Flat rendered script text: the lines joined with newlines. -/
def debianRenderScript (arch : String) (td : debianTemplateData) : String :=
  String.intercalate ("\n") ((debianScriptLines arch td).map (fun l => String.mk l))

/-- Concrete kernel release 5.10.0-8-amd64 used by the witnesses. -/
def krW : KernelRelease :=
  { Version := 5, PatchLevel := 10, Sublevel := 0,
    FullExtraversion := "-8-amd64", Architecture := "amd64" }

/-- Concrete cloud kernel release 4.19.0-6-cloud-amd64 used by the witnesses. -/
def krCloudW : KernelRelease :=
  { Version := 4, PatchLevel := 19, Sublevel := 0,
    FullExtraversion := "-6-cloud-amd64", Architecture := "amd64" }

/-- Concrete legacy major-version-3 release 3.16.0-2-amd64 used by the witnesses. -/
def krLegacyW : KernelRelease :=
  { Version := 3, PatchLevel := 16, Sublevel := 0,
    FullExtraversion := "-2-amd64", Architecture := "amd64" }

/-- Witness regex oracle matching only the newer naming scheme for both header roles. -/
def reNewOnlyW : String → String → List String := fun p _ =>
  if p = debianHeadersPatternNew krW (debianMatchExtraGroup krW) then ["m", "n1.deb"]
  else if p = debianHeadersPatternNew krW ("common") then ["m", "n2.deb"]
  else []

/-- Witness regex oracle matching only the older naming scheme for both header roles. -/
def reOldOnlyW : String → String → List String := fun p _ =>
  if p = debianHeadersPatternOld krW (debianMatchExtraGroup krW) then ["m", "h1.deb"]
  else if p = debianHeadersPatternOld krW ("common") then ["m", "h2.deb"]
  else []

/-- Witness regex oracle matching nothing at all. -/
def reNoneW : String → String → List String := fun _ _ => []

/-- Witness regex oracle matching the primary headers role only. -/
def reNoCommonW : String → String → List String := fun p _ =>
  if p = debianHeadersPatternOld krW (debianMatchExtraGroup krW) then ["m", "h1.deb"]
  else []

/-- Witness regex oracle resolving both header roles and the kbuild role. -/
def reFullW : String → String → List String := fun p _ =>
  if p = debianHeadersPatternOld krW (debianMatchExtraGroup krW) then ["m", "h1.deb"]
  else if p = debianHeadersPatternOld krW ("common") then ["m", "h2.deb"]
  else if p = debianKbuildPattern krW then ["m", "kb.deb"]
  else []

/-- Witness regex oracle resolving the kbuild role of the legacy release. -/
def reKb3W : String → String → List String := fun p _ =>
  if p = debianKbuildPattern krLegacyW then ["m", "kb3.deb"] else []

/-- Witness fetch oracle: every URL serves the same index body. -/
def fetchAllW : String → Except String String := fun _ => Except.ok ("IDX")

/-- Witness fetch oracle: the first mirror times out, the others serve the index body. -/
def fetchSkipW : String → Except String String := fun u =>
  if u = debianMirror0 then Except.error ("timeout") else Except.ok ("IDX")

/-- Witness template parser oracle that always succeeds. -/
def parseOkW : String → Except String Unit := fun _ => Except.ok ()

/-- Witness template execution oracle rendering the modelled script. -/
def execOkW : debianTemplateData → Except String String := fun td =>
  Except.ok (debianRenderScript ("amd64") td)

/-- Witness configuration carrying a two-element override URL list. -/
def cOverrideW : Config :=
  { Build := { DriverVersion := "1.0.0", ModuleFilePath := "/out/m.ko", ProbeFilePath := "" },
    KernelUrls := some ["http://a/x.deb", "http://b/y.deb"],
    DriverName := "falco",
    DownloadBaseURL := "http://dl" }

/-- Witness configuration with the module output path set and the probe path unset. -/
def cModOnlyW : Config :=
  { Build := { DriverVersion := "1.0.0", ModuleFilePath := "/out/m.ko", ProbeFilePath := "" },
    KernelUrls := none,
    DriverName := "falco",
    DownloadBaseURL := "http://dl" }

/-- Per-mirror header resolution consults the network only at its own base URL. -/
theorem fetchDebianHeaders_congr (re : String → String → List String)
    (f g : String → Except String String) (u : String) (kr : KernelRelease)
    (h : f u = g u) :
    fetchDebianHeadersURLFromRelease re f u kr =
      fetchDebianHeadersURLFromRelease re g u kr := by
  unfold fetchDebianHeadersURLFromRelease
  rw [h]

/-- C5: toolchain pinning is a total function of the kernel major version;
major version 5 selects LLVM 12 and every other major version selects LLVM 7. -/
theorem debian_llvm_pinning (kr : KernelRelease) :
    (kr.Version = 5 → debianLLVMVersionFromKernelRelease kr = "12") ∧
    (kr.Version ≠ 5 → debianLLVMVersionFromKernelRelease kr = "7") := by
  constructor <;> intro h <;> simp [debianLLVMVersionFromKernelRelease, h]

theorem debian_llvm_pinning_witness :
    debianLLVMVersionFromKernelRelease krW = "12" ∧
    debianLLVMVersionFromKernelRelease krCloudW = "7" :=
  ⟨(debian_llvm_pinning krW).1 rfl, (debian_llvm_pinning krCloudW).2 (by decide)⟩

/-- C1: whether the URLs come from caller-supplied overrides or from mirror
resolution, when the final reachable URL set has fewer than 3 URLs, Script
fails with the insufficient-artifacts error and returns no script text. -/
theorem debian_script_cardinality_gate (re : String → String → List String)
    (fetch : String → Except String String) (reach : String → Bool)
    (parse : String → Except String Unit)
    (exec : debianTemplateData → Except String String)
    (c : Config) (kr : KernelRelease) (urls : List String)
    (hp : parse (debianTemplateText kr.Architecture) = Except.ok ())
    (hr : debianResolvedURLs re fetch reach c kr = Except.ok urls)
    (hlen : urls.length < 3) :
    debianScript re fetch reach parse exec c kr =
      ("", some ("specific kernel headers not found")) := by
  simp [debianScript, hp, hr, hlen]

theorem debian_script_cardinality_gate_witness :
    debianScript reNoneW fetchAllW (fun _ => true) parseOkW execOkW cOverrideW krW =
      ("", some ("specific kernel headers not found")) :=
  debian_script_cardinality_gate reNoneW fetchAllW (fun _ => true) parseOkW execOkW
    cOverrideW krW (["http://a/x.deb", "http://b/y.deb"]) rfl rfl (by decide)

/-- C8: Script is atomic with respect to failure: whenever it reports an error
(from template parsing, URL resolution, the cardinality gate or template
execution), the returned script text is empty, never a partial render. -/
theorem debian_script_atomic_failure (re : String → String → List String)
    (fetch : String → Except String String) (reach : String → Bool)
    (parse : String → Except String Unit)
    (exec : debianTemplateData → Except String String)
    (c : Config) (kr : KernelRelease) (e : String)
    (h : (debianScript re fetch reach parse exec c kr).2 = some e) :
    (debianScript re fetch reach parse exec c kr).1 = "" := by
  unfold debianScript at h ⊢
  cases hp : parse (debianTemplateText kr.Architecture) with
  | error e1 => simp [hp]
  | ok u =>
    cases hr : debianResolvedURLs re fetch reach c kr with
    | error e2 => simp [hp, hr]
    | ok urls =>
      by_cases hlen : urls.length < 3
      · simp [hp, hr, hlen]
      · cases he : exec (mkDebianTemplateData c kr urls) with
        | error e3 => simp [hp, hr, hlen, he]
        | ok s => simp [hp, hr, hlen, he] at h

theorem debian_script_atomic_failure_witness :
    (debianScript reNoneW fetchAllW (fun _ => true) parseOkW execOkW cOverrideW krW).1
      = "" :=
  debian_script_atomic_failure reNoneW fetchAllW (fun _ => true) parseOkW execOkW
    cOverrideW krW ("specific kernel headers not found") rfl

/-- C2: mirror fallback is order-preserving over the fixed, ordered mirror
list: when the first mirror fails (transport or match failure, whose error is
absorbed) and the second yields a match, resolution returns the second
mirror's match; and the outcome is unchanged under any reinterpretation of the
third mirror's content (the fetch oracles f and g only have to agree on the
first two mirrors), so the remaining mirror is never inspected. -/
theorem debian_mirror_fallback_order (re : String → String → List String)
    (f g : String → Except String String) (kr : KernelRelease)
    (e : String) (urls : List String)
    (h0 : f debianMirror0 = g debianMirror0)
    (h1 : f debianMirror1 = g debianMirror1)
    (hf0 : fetchDebianHeadersURLFromRelease re f debianMirror0 kr = Except.error e)
    (hf1 : fetchDebianHeadersURLFromRelease re f debianMirror1 kr = Except.ok urls) :
    debianHeadersURLFromRelease re f kr = Except.ok urls ∧
    debianHeadersURLFromRelease re g kr = Except.ok urls := by
  have hg0 := hf0
  rw [fetchDebianHeaders_congr re f g debianMirror0 kr h0] at hg0
  have hg1 := hf1
  rw [fetchDebianHeaders_congr re f g debianMirror1 kr h1] at hg1
  constructor
  · simp [debianHeadersURLFromRelease, debianBaseURLs, debianHeadersLoop, hf0, hf1]
  · simp [debianHeadersURLFromRelease, debianBaseURLs, debianHeadersLoop, hg0, hg1]

theorem debian_mirror_fallback_order_witness :
    debianHeadersURLFromRelease reOldOnlyW fetchSkipW krW =
      Except.ok [debianMirror1 ++ ("h1.deb"), debianMirror1 ++ ("h2.deb")] ∧
    debianHeadersURLFromRelease reOldOnlyW fetchSkipW krW =
      Except.ok [debianMirror1 ++ ("h1.deb"), debianMirror1 ++ ("h2.deb")] :=
  debian_mirror_fallback_order reOldOnlyW fetchSkipW fetchSkipW krW ("timeout")
    ([debianMirror1 ++ ("h1.deb"), debianMirror1 ++ ("h2.deb")]) rfl rfl rfl rfl

/-- C3: naming-scheme fallback inside per-mirror resolution: for each header
role the older pattern is consulted first and the newer one only when the
older yields no match; an index body matching only the newer scheme still
resolves, one matching only the older scheme still resolves (the newer
pattern's behaviour is left unconstrained, so it is never consulted), and a
body matching neither scheme fails with a not-found error naming the
unsatisfied role (primary headers or common headers). -/
theorem debian_naming_scheme_fallback (re : String → String → List String)
    (fetch : String → Except String String) (b body : String) (kr : KernelRelease)
    (x y : String) (xs ys : List String)
    (hb : fetch b = Except.ok body) :
    (re (debianHeadersPatternOld kr (debianMatchExtraGroup kr)) body = [] →
      re (debianHeadersPatternNew kr (debianMatchExtraGroup kr)) body = x :: xs →
      re (debianHeadersPatternOld kr ("common")) body = [] →
      re (debianHeadersPatternNew kr ("common")) body = y :: ys →
      fetchDebianHeadersURLFromRelease re fetch b kr =
        Except.ok [b ++ (x :: xs).getD 1 (""), b ++ (y :: ys).getD 1 ("")]) ∧
    (re (debianHeadersPatternOld kr (debianMatchExtraGroup kr)) body = x :: xs →
      re (debianHeadersPatternOld kr ("common")) body = y :: ys →
      fetchDebianHeadersURLFromRelease re fetch b kr =
        Except.ok [b ++ (x :: xs).getD 1 (""), b ++ (y :: ys).getD 1 ("")]) ∧
    (re (debianHeadersPatternOld kr (debianMatchExtraGroup kr)) body = [] →
      re (debianHeadersPatternNew kr (debianMatchExtraGroup kr)) body = [] →
      fetchDebianHeadersURLFromRelease re fetch b kr =
        Except.error ("kernel headers not found")) ∧
    (re (debianHeadersPatternOld kr (debianMatchExtraGroup kr)) body = x :: xs →
      re (debianHeadersPatternOld kr ("common")) body = [] →
      re (debianHeadersPatternNew kr ("common")) body = [] →
      fetchDebianHeadersURLFromRelease re fetch b kr =
        Except.error ("kernel headers common not found")) := by
  refine ⟨?_, ?_, ?_, ?_⟩ <;> intro hs
  · intro h2 h3 h4
    simp [fetchDebianHeadersURLFromRelease, debianTryPatterns, hb, hs, h2, h3, h4]
  · intro h2
    simp [fetchDebianHeadersURLFromRelease, debianTryPatterns, hb, hs, h2]
  · intro h2
    simp [fetchDebianHeadersURLFromRelease, debianTryPatterns, hb, hs, h2]
  · intro h2 h3
    simp [fetchDebianHeadersURLFromRelease, debianTryPatterns, hb, hs, h2, h3]

theorem debian_naming_scheme_fallback_witness :
    (fetchDebianHeadersURLFromRelease reNewOnlyW fetchAllW debianMirror0 krW =
      Except.ok [debianMirror0 ++ ("n1.deb"), debianMirror0 ++ ("n2.deb")]) ∧
    (fetchDebianHeadersURLFromRelease reOldOnlyW fetchAllW debianMirror0 krW =
      Except.ok [debianMirror0 ++ ("h1.deb"), debianMirror0 ++ ("h2.deb")]) ∧
    (fetchDebianHeadersURLFromRelease reNoneW fetchAllW debianMirror0 krW =
      Except.error ("kernel headers not found")) ∧
    (fetchDebianHeadersURLFromRelease reNoCommonW fetchAllW debianMirror0 krW =
      Except.error ("kernel headers common not found")) :=
  ⟨(debian_naming_scheme_fallback reNewOnlyW fetchAllW debianMirror0 ("IDX") krW
      ("m") ("m") (["n1.deb"]) (["n2.deb"]) rfl).1 rfl rfl rfl rfl,
   (debian_naming_scheme_fallback reOldOnlyW fetchAllW debianMirror0 ("IDX") krW
      ("m") ("m") (["h1.deb"]) (["h2.deb"]) rfl).2.1 rfl rfl,
   (debian_naming_scheme_fallback reNoneW fetchAllW debianMirror0 ("IDX") krW
      ("m") ("m") ([]) ([]) rfl).2.2.1 rfl rfl,
   (debian_naming_scheme_fallback reNoCommonW fetchAllW debianMirror0 ("IDX") krW
      ("m") ("m") (["h1.deb"]) ([]) rfl).2.2.2 rfl rfl rfl⟩

/-- C6: the build-support (kbuild) artifact of a major-version-3 release is
resolved against the alternate linux-tools pool and any other major version
against the default pool: the resolution outcome depends on the fetch oracle
only at the selected pool's URL, and a successful resolution returns a URL
extending that pool's base URL. -/
theorem debian_kbuild_mirror_switch (re : String → String → List String)
    (f g : String → Except String String) (kr : KernelRelease) (u : String) :
    (kr.Version = 3 →
      (f debianKbuildToolsURL = g debianKbuildToolsURL →
        debianKbuildURLFromRelease re f kr = debianKbuildURLFromRelease re g kr) ∧
      (debianKbuildURLFromRelease re f kr = Except.ok u →
        ∃ m, u = debianKbuildToolsURL ++ m)) ∧
    (kr.Version ≠ 3 →
      (f debianKbuildMainURL = g debianKbuildMainURL →
        debianKbuildURLFromRelease re f kr = debianKbuildURLFromRelease re g kr) ∧
      (debianKbuildURLFromRelease re f kr = Except.ok u →
        ∃ m, u = debianKbuildMainURL ++ m)) := by
  constructor <;> intro h3
  · constructor
    · intro hfg
      unfold debianKbuildURLFromRelease debianKbuildBaseURL
      rw [if_pos h3, hfg]
    · intro hok
      unfold debianKbuildURLFromRelease debianKbuildBaseURL at hok
      rw [if_pos h3] at hok
      cases hf : f debianKbuildToolsURL with
      | error e => rw [hf] at hok; exact absurd hok (by simp)
      | ok body =>
        rw [hf] at hok
        dsimp only at hok
        by_cases hl : (re (debianKbuildPattern kr) body).length ≠ 2
        · rw [if_pos hl] at hok; exact absurd hok (by simp)
        · rw [if_neg hl] at hok
          refine ⟨(re (debianKbuildPattern kr) body).getD 1 (""), ?_⟩
          injection hok with h
          exact h.symm
  · constructor
    · intro hfg
      unfold debianKbuildURLFromRelease debianKbuildBaseURL
      rw [if_neg h3, hfg]
    · intro hok
      unfold debianKbuildURLFromRelease debianKbuildBaseURL at hok
      rw [if_neg h3] at hok
      cases hf : f debianKbuildMainURL with
      | error e => rw [hf] at hok; exact absurd hok (by simp)
      | ok body =>
        rw [hf] at hok
        dsimp only at hok
        by_cases hl : (re (debianKbuildPattern kr) body).length ≠ 2
        · rw [if_pos hl] at hok; exact absurd hok (by simp)
        · rw [if_neg hl] at hok
          refine ⟨(re (debianKbuildPattern kr) body).getD 1 (""), ?_⟩
          injection hok with h
          exact h.symm

theorem debian_kbuild_mirror_switch_witness :
    (∃ m, debianKbuildToolsURL ++ ("kb3.deb") = debianKbuildToolsURL ++ m) ∧
    (∃ m, debianKbuildMainURL ++ ("kb.deb") = debianKbuildMainURL ++ m) :=
  ⟨((debian_kbuild_mirror_switch reKb3W fetchAllW fetchAllW krLegacyW
      (debianKbuildToolsURL ++ ("kb3.deb"))).1 rfl).2 rfl,
   ((debian_kbuild_mirror_switch reFullW fetchAllW fetchAllW krW
      (debianKbuildMainURL ++ ("kb.deb"))).2 (by decide)).2 rfl⟩

/-- C7: when FullExtraversion carries the -cloud marker, the -cloud token is
stripped from the extraversion fragment that sits in the version part of the
header patterns, and the package naming group becomes the cloud-architecture
token; without the marker the plain architecture token is used and only the
architecture suffix is trimmed. -/
theorem debian_cloud_extraversion (kr : KernelRelease) :
    (strContains kr.FullExtraversion ("-cloud") = true →
      debianMatchExtraGroup kr = "cloud-" ++ kr.Architecture ∧
      debianExtraVersionFragment kr =
        strTrimSuffix (strTrimSuffix kr.FullExtraversion ("-" ++ kr.Architecture))
          ("-cloud") ∧
      debianHeadersPatternOld kr (debianMatchExtraGroup kr) =
        "href=\"(linux-headers-" ++ toString kr.Version ++ "\\."
          ++ toString kr.PatchLevel ++ "\\." ++ toString kr.Sublevel
          ++ strTrimSuffix (strTrimSuffix kr.FullExtraversion ("-" ++ kr.Architecture))
              ("-cloud")
          ++ "-(" ++ ("cloud-" ++ kr.Architecture) ++ ")_.*("
          ++ kr.Architecture ++ "|all)\\.deb)\"") ∧
    (strContains kr.FullExtraversion ("-cloud") = false →
      debianMatchExtraGroup kr = kr.Architecture ∧
      debianExtraVersionFragment kr =
        strTrimSuffix kr.FullExtraversion ("-" ++ kr.Architecture)) := by
  constructor <;> intro hc
  · refine ⟨?_, ?_, ?_⟩
    · simp [debianMatchExtraGroup, hc]
    · simp [debianExtraVersionFragment, hc]
    · simp [debianHeadersPatternOld, debianMatchExtraGroup, debianExtraVersionFragment, hc]
  · exact ⟨by simp [debianMatchExtraGroup, hc], by simp [debianExtraVersionFragment, hc]⟩

theorem debian_cloud_extraversion_witness :
    (debianMatchExtraGroup krCloudW = "cloud-" ++ krCloudW.Architecture ∧
      debianExtraVersionFragment krCloudW =
        strTrimSuffix (strTrimSuffix krCloudW.FullExtraversion
          ("-" ++ krCloudW.Architecture)) ("-cloud") ∧
      debianHeadersPatternOld krCloudW (debianMatchExtraGroup krCloudW) =
        "href=\"(linux-headers-" ++ toString krCloudW.Version ++ "\\."
          ++ toString krCloudW.PatchLevel ++ "\\." ++ toString krCloudW.Sublevel
          ++ strTrimSuffix (strTrimSuffix krCloudW.FullExtraversion
              ("-" ++ krCloudW.Architecture)) ("-cloud")
          ++ "-(" ++ ("cloud-" ++ krCloudW.Architecture) ++ ")_.*("
          ++ krCloudW.Architecture ++ "|all)\\.deb)\"") ∧
    (debianMatchExtraGroup krW = krW.Architecture ∧
      debianExtraVersionFragment krW =
        strTrimSuffix krW.FullExtraversion ("-" ++ krW.Architecture)) :=
  ⟨(debian_cloud_extraversion krCloudW).1 rfl, (debian_cloud_extraversion krW).2 rfl⟩

/-- A successful per-mirror header resolution returns exactly two URLs, both
extending that mirror's base URL. -/
theorem fetchDebianHeaders_ok_shape (re : String → String → List String)
    (f : String → Except String String) (b : String) (kr : KernelRelease)
    (urls : List String)
    (h : fetchDebianHeadersURLFromRelease re f b kr = Except.ok urls) :
    ∃ m mc, urls = [b ++ m, b ++ mc] := by
  unfold fetchDebianHeadersURLFromRelease at h
  cases hf : f b with
  | error e => rw [hf] at h; exact absurd h (by simp)
  | ok body =>
    rw [hf] at h
    dsimp only at h
    split at h
    · exact absurd h (by simp)
    · split at h
      · exact absurd h (by simp)
      · injection h with h2
        exact ⟨_, _, h2.symm⟩

/-- A successful run of the mirror loop is the successful per-mirror
resolution of one of the mirrors in the list. -/
theorem debianHeadersLoop_ok_mem (re : String → String → List String)
    (f : String → Except String String) (kr : KernelRelease) :
    ∀ (L : List String) (urls : List String),
      debianHeadersLoop re f kr L = Except.ok urls →
      ∃ b, b ∈ L ∧ fetchDebianHeadersURLFromRelease re f b kr = Except.ok urls := by
  intro L
  induction L with
  | nil => intro urls h; simp [debianHeadersLoop] at h
  | cons u rest ih =>
    intro urls h
    simp only [debianHeadersLoop] at h
    cases hf : fetchDebianHeadersURLFromRelease re f u kr with
    | ok v =>
      rw [hf] at h
      dsimp only at h
      injection h with h2
      exact ⟨u, by simp, by rw [hf, h2]⟩
    | error e =>
      rw [hf] at h
      dsimp only at h
      rcases ih urls h with ⟨b, hb, hfb⟩
      exact ⟨b, by simp [hb], hfb⟩

/-- C9: when Debian header resolution succeeds, both header URLs extend the
same mirror base URL, taken from the fixed mirror list; a mirror whose index
satisfies the primary headers role but not the common headers role makes the
whole per-mirror resolution fail with the common-role error; and after a
failing first mirror the loop continues with exactly the remaining mirrors. -/
theorem debian_headers_same_mirror (re : String → String → List String)
    (f : String → Except String String) (kr : KernelRelease)
    (urls : List String) (body : String) (x : String) (xs : List String) :
    (debianHeadersURLFromRelease re f kr = Except.ok urls →
      ∃ b m mc, b ∈ debianBaseURLs ∧
        fetchDebianHeadersURLFromRelease re f b kr = Except.ok urls ∧
        urls = [b ++ m, b ++ mc]) ∧
    (∀ b, f b = Except.ok body →
      re (debianHeadersPatternOld kr (debianMatchExtraGroup kr)) body = x :: xs →
      re (debianHeadersPatternOld kr ("common")) body = [] →
      re (debianHeadersPatternNew kr ("common")) body = [] →
      fetchDebianHeadersURLFromRelease re f b kr =
        Except.error ("kernel headers common not found")) ∧
    (∀ e, fetchDebianHeadersURLFromRelease re f debianMirror0 kr = Except.error e →
      debianHeadersURLFromRelease re f kr =
        debianHeadersLoop re f kr [debianMirror1, debianMirror2]) := by
  refine ⟨?_, ?_, ?_⟩
  · intro h
    rcases debianHeadersLoop_ok_mem re f kr debianBaseURLs urls h with ⟨b, hb, hfb⟩
    rcases fetchDebianHeaders_ok_shape re f b kr urls hfb with ⟨m, mc, hshape⟩
    exact ⟨b, m, mc, hb, hfb, hshape⟩
  · intro b hb h1 h2 h3
    simp [fetchDebianHeadersURLFromRelease, debianTryPatterns, hb, h1, h2, h3]
  · intro e he
    simp [debianHeadersURLFromRelease, debianBaseURLs, debianHeadersLoop, he]

theorem debian_headers_same_mirror_witness :
    (∃ b m mc, b ∈ debianBaseURLs ∧
      fetchDebianHeadersURLFromRelease reFullW fetchAllW b krW =
        Except.ok [debianMirror0 ++ ("h1.deb"), debianMirror0 ++ ("h2.deb")] ∧
      [debianMirror0 ++ ("h1.deb"), debianMirror0 ++ ("h2.deb")] = [b ++ m, b ++ mc]) ∧
    (fetchDebianHeadersURLFromRelease reNoCommonW fetchAllW debianMirror0 krW =
      Except.error ("kernel headers common not found")) :=
  ⟨(debian_headers_same_mirror reFullW fetchAllW krW
      ([debianMirror0 ++ ("h1.deb"), debianMirror0 ++ ("h2.deb")]) ("IDX") ("m")
      (["h1.deb"])).1 rfl,
   (debian_headers_same_mirror reNoCommonW fetchAllW krW ([]) ("IDX") ("m")
      (["h1.deb"])).2.1 debianMirror0 rfl rfl rfl rfl⟩

/-- C10: a successful non-override resolution returns exactly three URLs in
the fixed order primary headers, common headers, kbuild — the two header URLs
sharing one mirror base from the fixed list and the build-support URL last. -/
theorem debian_kernel_urls_shape (re : String → String → List String)
    (f : String → Except String String) (kr : KernelRelease) (urls : List String)
    (h : fetchDebianKernelURLs re f kr = Except.ok urls) :
    ∃ b m mc kb, b ∈ debianBaseURLs ∧
      debianHeadersURLFromRelease re f kr = Except.ok [b ++ m, b ++ mc] ∧
      debianKbuildURLFromRelease re f kr = Except.ok kb ∧
      urls = [b ++ m, b ++ mc, kb] ∧ urls.length = 3 := by
  unfold fetchDebianKernelURLs at h
  cases hkb : debianKbuildURLFromRelease re f kr with
  | error e => rw [hkb] at h; exact absurd h (by simp)
  | ok kb =>
    rw [hkb] at h
    dsimp only at h
    cases hh : debianHeadersURLFromRelease re f kr with
    | error e => rw [hh] at h; exact absurd h (by simp)
    | ok hs =>
      rw [hh] at h
      dsimp only at h
      injection h with h2
      rcases debianHeadersLoop_ok_mem re f kr debianBaseURLs hs hh with ⟨b, hb, hfb⟩
      rcases fetchDebianHeaders_ok_shape re f b kr hs hfb with ⟨m, mc, hshape⟩
      subst hshape
      refine ⟨b, m, mc, kb, hb, rfl, rfl, h2.symm, ?_⟩
      rw [← h2]
      rfl

theorem debian_kernel_urls_shape_witness :
    ∃ b m mc kb, b ∈ debianBaseURLs ∧
      debianHeadersURLFromRelease reFullW fetchAllW krW = Except.ok [b ++ m, b ++ mc] ∧
      debianKbuildURLFromRelease reFullW fetchAllW krW = Except.ok kb ∧
      [debianMirror0 ++ ("h1.deb"), debianMirror0 ++ ("h2.deb"),
        debianKbuildMainURL ++ ("kb.deb")] = [b ++ m, b ++ mc, kb] ∧
      ([debianMirror0 ++ ("h1.deb"), debianMirror0 ++ ("h2.deb"),
        debianKbuildMainURL ++ ("kb.deb")] : List String).length = 3 :=
  debian_kernel_urls_shape reFullW fetchAllW krW
    ([debianMirror0 ++ ("h1.deb"), debianMirror0 ++ ("h2.deb"),
      debianKbuildMainURL ++ ("kb.deb")]) rfl

/-- The first two characters of an interpolated line come from its fixed
leading fragment. -/
theorem take_two_iline (hd : String) (rest : List Char) (h2 : 2 ≤ hd.data.length) :
    (iline hd rest).take 2 = hd.data.take 2 := by
  unfold iline
  exact List.take_append_of_le_length h2

/-- No preamble line starts with the two characters every section marker
starts with. -/
theorem preamble_take_two (arch : String) (td : debianTemplateData) :
    ∀ l ∈ debianPreambleLines arch td, l.take 2 ≠ str ("# ") := by
  intro l hl
  rw [debianPreambleLines] at hl
  simp only [List.mem_append, List.mem_cons, List.mem_map, List.not_mem_nil,
    or_false] at hl
  rcases hl with ((rfl | rfl | rfl | rfl | rfl) | ⟨u, hu, rfl⟩) | (rfl | rfl)
  · decide
  · decide
  · rw [take_two_iline _ _ (by decide)]; decide
  · rw [take_two_iline _ _ (by decide)]; decide
  · rw [take_two_iline _ _ (by decide)]; decide
  · rw [take_two_iline _ _ (by decide)]; decide
  · rw [take_two_iline _ _ (by decide)]; decide
  · decide

/-- The module-build marker never occurs among the preamble lines. -/
theorem moduleMarker_notin_preamble (arch : String) (td : debianTemplateData) :
    moduleSectionMarker ∉ debianPreambleLines arch td := by
  intro h
  exact preamble_take_two arch td moduleSectionMarker h (by decide)

/-- The probe-build marker never occurs among the preamble lines. -/
theorem probeMarker_notin_preamble (arch : String) (td : debianTemplateData) :
    probeSectionMarker ∉ debianPreambleLines arch td := by
  intro h
  exact preamble_take_two arch td probeSectionMarker h (by decide)

/-- The module-build marker never occurs among the probe-build lines. -/
theorem moduleMarker_notin_probe (td : debianTemplateData) :
    moduleSectionMarker ∉ debianProbeLines td := by
  intro hmem
  rw [debianProbeLines] at hmem
  simp only [List.mem_cons, List.not_mem_nil, or_false] at hmem
  rcases hmem with h | h | h | h
  · exact absurd h (by decide)
  · have h2 := congrArg (List.take 2) h
    rw [take_two_iline _ _ (by decide)] at h2
    exact absurd h2 (by decide)
  · have h2 := congrArg (List.take 2) h
    rw [take_two_iline _ _ (by decide)] at h2
    exact absurd h2 (by decide)
  · exact absurd h (by decide)

/-- The probe-build marker never occurs among the module-build lines. -/
theorem probeMarker_notin_module (td : debianTemplateData) :
    probeSectionMarker ∉ debianModuleLines td := by
  intro hmem
  rw [debianModuleLines] at hmem
  simp only [List.mem_cons, List.not_mem_nil, or_false] at hmem
  rcases hmem with h | h | h | h | h
  · exact absurd h (by decide)
  · have h2 := congrArg (List.take 2) h
    rw [take_two_iline _ _ (by decide)] at h2
    exact absurd h2 (by decide)
  · have h2 := congrArg (List.take 2) h
    rw [take_two_iline _ _ (by decide)] at h2
    exact absurd h2 (by decide)
  · have h2 := congrArg (List.take 2) h
    rw [take_two_iline _ _ (by decide)] at h2
    exact absurd h2 (by decide)
  · have h2 := congrArg (List.take 2) h
    rw [take_two_iline _ _ (by decide)] at h2
    exact absurd h2 (by decide)

/-- The rendered lines contain the module-build marker exactly when the
BuildModule toggle is set. -/
theorem moduleMarker_mem_iff (arch : String) (td : debianTemplateData) :
    moduleSectionMarker ∈ debianScriptLines arch td ↔ td.BuildModule = true := by
  rw [debianScriptLines]
  simp only [List.mem_append]
  constructor
  · rintro ((h | h) | h)
    · exact absurd h (moduleMarker_notin_preamble arch td)
    · split at h
      · next hb => exact hb
      · simp at h
    · split at h
      · exact absurd h (moduleMarker_notin_probe td)
      · simp at h
  · intro hb
    refine Or.inl (Or.inr ?_)
    rw [if_pos hb]
    simp [debianModuleLines]

/-- The rendered lines contain the probe-build marker exactly when the
BuildProbe toggle is set. -/
theorem probeMarker_mem_iff (arch : String) (td : debianTemplateData) :
    probeSectionMarker ∈ debianScriptLines arch td ↔ td.BuildProbe = true := by
  rw [debianScriptLines]
  simp only [List.mem_append]
  constructor
  · rintro ((h | h) | h)
    · exact absurd h (probeMarker_notin_preamble arch td)
    · split at h
      · exact absurd h (probeMarker_notin_module td)
      · simp at h
    · split at h
      · next hb => exact hb
      · simp at h
  · intro hb
    refine Or.inr ?_
    rw [if_pos hb]
    simp [debianProbeLines]

/-- C4: the script rendered from the template data Script builds contains the
module-build section exactly when the module output path is configured and the
probe-build section exactly when the probe output path is configured, and the
source/kernel-header acquisition preamble is always an initial segment of the
rendered script. -/
theorem debian_conditional_sections (arch : String) (c : Config) (kr : KernelRelease)
    (urls : List String) :
    (moduleSectionMarker ∈ debianScriptLines arch (mkDebianTemplateData c kr urls) ↔
      0 < c.Build.ModuleFilePath.length) ∧
    (probeSectionMarker ∈ debianScriptLines arch (mkDebianTemplateData c kr urls) ↔
      0 < c.Build.ProbeFilePath.length) ∧
    (∃ rest, debianScriptLines arch (mkDebianTemplateData c kr urls) =
      debianPreambleLines arch (mkDebianTemplateData c kr urls) ++ rest) := by
  refine ⟨?_, ?_, ⟨_, by rw [debianScriptLines, List.append_assoc]⟩⟩
  · rw [moduleMarker_mem_iff]
    show (decide (0 < c.Build.ModuleFilePath.length) = true) ↔ _
    simp
  · rw [probeMarker_mem_iff]
    show (decide (0 < c.Build.ProbeFilePath.length) = true) ↔ _
    simp

theorem debian_conditional_sections_witness :
    (moduleSectionMarker ∈ debianScriptLines ("amd64")
        (mkDebianTemplateData cModOnlyW krW (["u1", "u2", "u3"])) ↔
      0 < cModOnlyW.Build.ModuleFilePath.length) ∧
    (probeSectionMarker ∈ debianScriptLines ("amd64")
        (mkDebianTemplateData cModOnlyW krW (["u1", "u2", "u3"])) ↔
      0 < cModOnlyW.Build.ProbeFilePath.length) ∧
    (∃ rest, debianScriptLines ("amd64") (mkDebianTemplateData cModOnlyW krW
        (["u1", "u2", "u3"])) =
      debianPreambleLines ("amd64") (mkDebianTemplateData cModOnlyW krW
        (["u1", "u2", "u3"])) ++ rest) :=
  debian_conditional_sections ("amd64") cModOnlyW krW (["u1", "u2", "u3"])
